import Mathlib

/-!
Verification development for the sen6x configuration-validation and
code-generation component (an ESPHome external component written in Python).

The Python modules under components/sen6x are shallowly embedded below:
each per-platform to_code coroutine becomes a pure Lean function from a
validated-configuration record to the list of wiring instructions it emits,
and the static data tables (model capabilities, VOC and NOx tuning defaults)
become Lean constants. Configuration-time numeric literals (number bounds,
compensation slope) are modelled as exact rationals; machine integers are
modelled as Nat or Int (no overflow arises at configuration time).
-/

/-- A model capability record: the seven boolean support flags kept for each
device model in MODEL_CAPABILITIES (order: PM, PM4.0, RH/T, VOC, NOx, CO2,
HCHO), embedding the per-model dict of __init__.py. -/
structure ModelCapabilityRecord where
  pm : Bool
  pm4 : Bool
  rht : Bool
  voc : Bool
  nox : Bool
  co2 : Bool
  hcho : Bool
deriving DecidableEq, Repr

/-- The MODEL_CAPABILITIES table of __init__.py (lines 28-41), as an
association list in the same key order as the Python dict literal. -/
def MODEL_CAPABILITIES : List (String × ModelCapabilityRecord) :=
  [ ("SEN62",  ⟨true, true,  true, false, false, false, false⟩),
    ("SEN63C", ⟨true, false, true, false, false, true,  false⟩),
    ("SEN65",  ⟨true, false, true, true,  true,  false, false⟩),
    ("SEN66",  ⟨true, true,  true, true,  true,  true,  false⟩),
    ("SEN68",  ⟨true, false, true, true,  true,  false, true⟩),
    ("SEN69C", ⟨true, true,  true, true,  true,  true,  true⟩) ]

/-- The record stored under key SEN66 in MODEL_CAPABILITIES. -/
def sen66_record : ModelCapabilityRecord :=
  ⟨true, true, true, true, true, true, false⟩

/-- The record stored under key SEN69C in MODEL_CAPABILITIES. -/
def sen69c_record : ModelCapabilityRecord :=
  ⟨true, true, true, true, true, true, true⟩

/-- Embedding of get_model_capabilities (__init__.py lines 79-81):
MODEL_CAPABILITIES.get(model, MODEL_CAPABILITIES["SEN66"]). The inner
lookup of the literal key SEN66 always succeeds on the table above; the
final fallback arm is unreachable (in Python an absent literal key would
raise, but SEN66 is present). -/
def get_model_capabilities (model : String) : ModelCapabilityRecord :=
  match MODEL_CAPABILITIES.lookup model with
  | some r => r
  | none =>
    match MODEL_CAPABILITIES.lookup "SEN66" with
    | some r => r
    | none => ⟨false, false, false, false, false, false, false⟩

/-- a capDominates b: every support flag set in b is also set in a, i.e.
the flags of a are at least as permissive as the flags of b. -/
def capDominates (a b : ModelCapabilityRecord) : Bool :=
  (!b.pm || a.pm) && (!b.pm4 || a.pm4) && (!b.rht || a.rht) &&
  (!b.voc || a.voc) && (!b.nox || a.nox) && (!b.co2 || a.co2) &&
  (!b.hcho || a.hcho)

/-- One wiring instruction, as emitted through cg.add / cg.new_Pvariable /
the per-platform entity constructors during one code-generation pass. Each
constructor mirrors one call site in the Python to_code coroutines; setter
binding points carry the Python setter name as a string. -/
inductive Instr where
  | newPvariable : Instr
  | registerComponent : Instr
  | registerI2CDevice : Instr
  | setPressureSource : Instr
  | setRhtAcceleration (k p : Int) (t1 t2 : Nat) : Instr
  | newSensor (key : String) : Instr
  | setSensor (binding : String) : Instr
  | setVocAlgorithmTuning (indexOffset learnOffsetH learnGainH gatingMaxMin stdInit gainFactor : Nat) : Instr
  | setNoxAlgorithmTuning (indexOffset learnOffsetH learnGainH gatingMaxMin stdInit gainFactor : Nat) : Instr
  | newBinarySensor (key : String) : Instr
  | setBinarySensor (binding : String) : Instr
  | newNumber (key : String) (minValue maxValue step : ℚ) : Instr
  | setNumber (binding : String) : Instr
  | setTemperatureCompensation (offset slope : ℚ) (timeConstant : Nat) : Instr
  | newSwitch (key : String) : Instr
  | setSwitch (binding : String) : Instr
  | setAutoCleaningInterval (ms : Nat) : Instr
  | newButton (key : String) : Instr
  | setButton (binding : String) : Instr
  | newTextSensor (key : String) : Instr
  | setTextSensor (binding : String) : Instr
deriving DecidableEq, Repr

/-- Guarded emission: the body of one Python block of the form
if KEY in config: ... (emit these instructions). -/
def emitIf (present : Bool) (l : List Instr) : List Instr :=
  if present then l else []

/-- The RHT acceleration sub-block {k, p, t1, t2} validated by
RHT_ACCELERATION_SCHEMA: k, p are 16-bit signed, t1, t2 16-bit unsigned. -/
structure RhtAccel where
  k : Int
  p : Int
  t1 : Nat
  t2 : Nat
deriving DecidableEq, Repr

/-- The validated hub configuration (CONFIG_SCHEMA of __init__.py): the two
optional blocks that drive instruction emission. The pressure source value is
the resolved external sensor handle, opaque here. -/
structure HubConfig where
  pressure_source : Option Unit
  rht_acceleration : Option RhtAccel
deriving DecidableEq, Repr

/-- Embedding of the hub to_code (__init__.py lines 84-106): construct the
hub variable, register it as a component and as an I2C device, then bind the
pressure source if configured, then pass the RHT acceleration struct if
configured — in that source order. -/
def hub_to_code (c : HubConfig) : List Instr :=
  [.newPvariable, .registerComponent, .registerI2CDevice] ++
  (match c.pressure_source with
   | some _ => [.setPressureSource]
   | none => []) ++
  (match c.rht_acceleration with
   | some r => [.setRhtAcceleration r.k r.p r.t1 r.t2]
   | none => [])

/-- The six validated algorithm-tuning values of ALGORITHM_TUNING_SCHEMA
(sensor.py lines 77-84), after defaulting: all six fields are always
present in a validated tuning block. -/
structure AlgorithmTuning where
  index_offset : Nat
  learning_time_offset_hours : Nat
  learning_time_gain_hours : Nat
  gating_max_duration_minutes : Nat
  std_initial : Nat
  gain_factor : Nat
deriving DecidableEq, Repr

/-- VOC_DEFAULTS (sensor.py lines 57-64). -/
def VOC_DEFAULTS : AlgorithmTuning :=
  { index_offset := 100
    learning_time_offset_hours := 12
    learning_time_gain_hours := 12
    gating_max_duration_minutes := 180
    std_initial := 50
    gain_factor := 230 }

/-- NOX_DEFAULTS (sensor.py lines 67-74). -/
def NOX_DEFAULTS : AlgorithmTuning :=
  { index_offset := 1
    learning_time_offset_hours := 12
    learning_time_gain_hours := 12
    gating_max_duration_minutes := 720
    std_initial := 50
    gain_factor := 230 }

/-- The twenty optional sensor keys of the sensor platform CONFIG_SCHEMA
(sensor.py), named as in the source. -/
inductive SensorKey where
  | pm_1_0 | pm_2_5 | pm_4_0 | pm_10_0 | humidity | temperature
  | voc_index | nox_index | co2 | formaldehyde
  | tvoc_well | tvoc_reset | tvoc_ethanol
  | nc_0_5 | nc_1_0 | nc_2_5 | nc_4_0 | nc_10_0
  | ambient_pressure | sensor_altitude
deriving DecidableEq, Repr

/-- The validated sensor-platform configuration: which sensor keys the user
declared, in declaration order (the validated dict preserves the order of
the input keys), plus the optional algorithm_tuning sub-blocks carried
inside the voc_index and nox_index entries. -/
structure SensorPlatformConfig where
  declared : List SensorKey
  voc_tuning : Option AlgorithmTuning
  nox_tuning : Option AlgorithmTuning
deriving DecidableEq, Repr

/-- Embedding of the sensor platform to_code (sensor.py lines 233-322): one
guarded block per sensor key, in the fixed order of the source, each
constructing the entity and binding it to the hub; the voc_index and
nox_index blocks additionally forward the six algorithm-tuning values in one
call when the sub-block is present. -/
def sensor_to_code (c : SensorPlatformConfig) : List Instr :=
  emitIf (c.declared.contains .pm_1_0)
    [.newSensor "pm_1_0", .setSensor "set_pm_1_0_sensor"] ++
  emitIf (c.declared.contains .pm_2_5)
    [.newSensor "pm_2_5", .setSensor "set_pm_2_5_sensor"] ++
  emitIf (c.declared.contains .pm_4_0)
    [.newSensor "pm_4_0", .setSensor "set_pm_4_0_sensor"] ++
  emitIf (c.declared.contains .pm_10_0)
    [.newSensor "pm_10_0", .setSensor "set_pm_10_0_sensor"] ++
  emitIf (c.declared.contains .humidity)
    [.newSensor "humidity", .setSensor "set_humidity_sensor"] ++
  emitIf (c.declared.contains .temperature)
    [.newSensor "temperature", .setSensor "set_temperature_sensor"] ++
  emitIf (c.declared.contains .voc_index)
    ([.newSensor "voc_index", .setSensor "set_voc_index_sensor"] ++
     (match c.voc_tuning with
      | some t => [.setVocAlgorithmTuning t.index_offset
          t.learning_time_offset_hours t.learning_time_gain_hours
          t.gating_max_duration_minutes t.std_initial t.gain_factor]
      | none => [])) ++
  emitIf (c.declared.contains .nox_index)
    ([.newSensor "nox_index", .setSensor "set_nox_index_sensor"] ++
     (match c.nox_tuning with
      | some t => [.setNoxAlgorithmTuning t.index_offset
          t.learning_time_offset_hours t.learning_time_gain_hours
          t.gating_max_duration_minutes t.std_initial t.gain_factor]
      | none => [])) ++
  emitIf (c.declared.contains .co2)
    [.newSensor "co2", .setSensor "set_co2_sensor"] ++
  emitIf (c.declared.contains .formaldehyde)
    [.newSensor "formaldehyde", .setSensor "set_formaldehyde_sensor"] ++
  emitIf (c.declared.contains .tvoc_well)
    [.newSensor "tvoc_well", .setSensor "set_tvoc_well_sensor"] ++
  emitIf (c.declared.contains .tvoc_reset)
    [.newSensor "tvoc_reset", .setSensor "set_tvoc_reset_sensor"] ++
  emitIf (c.declared.contains .tvoc_ethanol)
    [.newSensor "tvoc_ethanol", .setSensor "set_tvoc_ethanol_sensor"] ++
  emitIf (c.declared.contains .nc_0_5)
    [.newSensor "nc_0_5", .setSensor "set_nc_0_5_sensor"] ++
  emitIf (c.declared.contains .nc_1_0)
    [.newSensor "nc_1_0", .setSensor "set_nc_1_0_sensor"] ++
  emitIf (c.declared.contains .nc_2_5)
    [.newSensor "nc_2_5", .setSensor "set_nc_2_5_sensor"] ++
  emitIf (c.declared.contains .nc_4_0)
    [.newSensor "nc_4_0", .setSensor "set_nc_4_0_sensor"] ++
  emitIf (c.declared.contains .nc_10_0)
    [.newSensor "nc_10_0", .setSensor "set_nc_10_0_sensor"] ++
  emitIf (c.declared.contains .ambient_pressure)
    [.newSensor "ambient_pressure", .setSensor "set_ambient_pressure_sensor"] ++
  emitIf (c.declared.contains .sensor_altitude)
    [.newSensor "sensor_altitude", .setSensor "set_sensor_altitude_sensor"]

/-- The seven optional binary-sensor keys (binary_sensor.py). -/
inductive BinarySensorKey where
  | fan_error | fan_warning | gas_error | rht_error | pm_error
  | laser_error | fan_cleaning_active
deriving DecidableEq, Repr

/-- The validated binary-sensor platform configuration: declared keys in
declaration order. -/
structure BinarySensorPlatformConfig where
  declared : List BinarySensorKey
deriving DecidableEq, Repr

/-- Embedding of the binary-sensor platform to_code (binary_sensor.py lines
54-83): one guarded construct-and-bind block per key, in source order. -/
def binary_sensor_to_code (c : BinarySensorPlatformConfig) : List Instr :=
  emitIf (c.declared.contains .fan_error)
    [.newBinarySensor "fan_error", .setBinarySensor "set_fan_error_binary_sensor"] ++
  emitIf (c.declared.contains .fan_warning)
    [.newBinarySensor "fan_warning", .setBinarySensor "set_fan_warning_binary_sensor"] ++
  emitIf (c.declared.contains .gas_error)
    [.newBinarySensor "gas_error", .setBinarySensor "set_gas_error_binary_sensor"] ++
  emitIf (c.declared.contains .rht_error)
    [.newBinarySensor "rht_error", .setBinarySensor "set_rht_error_binary_sensor"] ++
  emitIf (c.declared.contains .pm_error)
    [.newBinarySensor "pm_error", .setBinarySensor "set_pm_error_binary_sensor"] ++
  emitIf (c.declared.contains .laser_error)
    [.newBinarySensor "laser_error", .setBinarySensor "set_laser_error_binary_sensor"] ++
  emitIf (c.declared.contains .fan_cleaning_active)
    [.newBinarySensor "fan_cleaning_active", .setBinarySensor "set_fan_cleaning_active_binary_sensor"]

/-- The advanced fields of the temperature_offset number entry (number.py
lines 38-48): normalized_offset_slope (float, default 0.0, range [-1, 1])
and time_constant (int, default 0, range [0, 65535]); validated entries
always carry both, via the schema defaults. -/
structure TempOffsetConfig where
  normalized_offset_slope : ℚ
  time_constant : Nat
deriving DecidableEq, Repr

/-- The validated number platform configuration (number.py CONFIG_SCHEMA):
four optional entries; only temperature_offset carries extra payload that
emission reads. -/
structure NumberPlatformConfig where
  altitude_compensation : Option Unit
  ambient_pressure_compensation : Option Unit
  temperature_offset : Option TempOffsetConfig
  outdoor_co2_reference : Option Unit
deriving DecidableEq, Repr

/-- Embedding of the number platform to_code (number.py lines 59-82): each
declared entry constructs a number with the hard-coded min_value, max_value
and step of the source, then binds it; the temperature_offset block also
emits one set_temperature_compensation(0.0, slope, time_const) call exactly
when slope is nonzero or time_const is nonzero. -/
def number_to_code (c : NumberPlatformConfig) : List Instr :=
  (match c.altitude_compensation with
   | some _ => [.newNumber "altitude_compensation" 0 3000 1,
                .setNumber "set_altitude_compensation_number"]
   | none => []) ++
  (match c.ambient_pressure_compensation with
   | some _ => [.newNumber "ambient_pressure_compensation" 0 1100 1,
                .setNumber "set_ambient_pressure_compensation_number"]
   | none => []) ++
  (match c.temperature_offset with
   | some t =>
     [.newNumber "temperature_offset" (-10) 10 (1/10),
      .setNumber "set_temperature_offset_number"] ++
     (if t.normalized_offset_slope ≠ 0 ∨ t.time_constant ≠ 0 then
        [.setTemperatureCompensation 0 t.normalized_offset_slope t.time_constant]
      else [])
   | none => []) ++
  (match c.outdoor_co2_reference with
   | some _ => [.newNumber "outdoor_co2_reference" 350 500 1,
                .setNumber "set_outdoor_co2_reference_number"]
   | none => [])

/-- DEFAULT_CLEANING_INTERVAL (switch.py line 17): 7 days = 604800 seconds. -/
def DEFAULT_CLEANING_INTERVAL : Nat := 604800

/-- The auto_fan_cleaning entry after validation (switch.py lines 27-34):
the interval field, validated by positive_time_period_seconds with default
string 7d, held as a whole count of seconds. -/
structure AutoFanCleaningConfig where
  interval_seconds : Nat
deriving DecidableEq, Repr

/-- The validated switch platform configuration (switch.py CONFIG_SCHEMA). -/
structure SwitchPlatformConfig where
  co2_automatic_self_calibration : Option Unit
  auto_fan_cleaning : Option AutoFanCleaningConfig
deriving DecidableEq, Repr

/-- Embedding of the switch platform to_code (switch.py lines 37-50): the
CO2 automatic-self-calibration block, then the auto-fan-cleaning block,
which also emits the cleaning interval converted from seconds to
milliseconds, int(interval_seconds * 1000). -/
def switch_to_code (c : SwitchPlatformConfig) : List Instr :=
  (match c.co2_automatic_self_calibration with
   | some _ => [.newSwitch "co2_automatic_self_calibration",
                .setSwitch "set_co2_asc_switch"]
   | none => []) ++
  (match c.auto_fan_cleaning with
   | some a => [.newSwitch "auto_fan_cleaning",
                .setSwitch "set_auto_cleaning_switch",
                .setAutoCleaningInterval (a.interval_seconds * 1000)]
   | none => [])

/-- Decimal reading of a non-empty digit string, for the duration
validator model below. -/
def charsToNat? (cs : List Char) : Option Nat :=
  match cs with
  | [] => none
  | _ => some (cs.foldl (fun acc c => acc * 10 + (c.toNat - 48)) 0)

/-- Modelled from the spec: the Duration field validator
(cv.positive_time_period_seconds, code of the external validation framework,
not under src/) accepts a human-readable interval and converts it to a count
of elapsed seconds. Modelled here for a whole number followed by a day,
hour, minute or second suffix, per the spec sentence on the Duration
validator. -/
def parse_time_period_seconds (s : String) : Option Nat :=
  let cs := s.toList
  let digits := cs.takeWhile Char.isDigit
  let suffix := cs.drop digits.length
  match charsToNat? digits with
  | none => none
  | some n =>
    if suffix = ['d'] then some (n * 86400)
    else if suffix = ['h'] then some (n * 3600)
    else if suffix = ['m', 'i', 'n'] then some (n * 60)
    else if suffix = ['s'] then some n
    else none

/-- Validation of the interval field of the auto_fan_cleaning entry: the
schema default string 7d is substituted when the field is omitted, then the
Duration validator converts it to seconds. -/
def validate_auto_fan_cleaning_interval (raw : Option String) : Option Nat :=
  parse_time_period_seconds (raw.getD "7d")

/-- The milliseconds value the switch platform emits for a given raw
interval field: validate to seconds, then multiply by 1000 as in
switch.py line 50. -/
def autoCleaningEmittedMs (raw : Option String) : Option Nat :=
  (validate_auto_fan_cleaning_interval raw).map (fun s => s * 1000)

/-- The seven optional button keys (button.py). -/
inductive ButtonKey where
  | fan_cleaning | device_reset | reset_preferences | force_co2_calibration
  | co2_factory_reset | sht_heater | clear_device_status
deriving DecidableEq, Repr

/-- The validated button platform configuration: declared keys in
declaration order. -/
structure ButtonPlatformConfig where
  declared : List ButtonKey
deriving DecidableEq, Repr

/-- Embedding of the button platform to_code (button.py lines 59-88). -/
def button_to_code (c : ButtonPlatformConfig) : List Instr :=
  emitIf (c.declared.contains .fan_cleaning)
    [.newButton "fan_cleaning", .setButton "set_fan_cleaning_button"] ++
  emitIf (c.declared.contains .device_reset)
    [.newButton "device_reset", .setButton "set_device_reset_button"] ++
  emitIf (c.declared.contains .reset_preferences)
    [.newButton "reset_preferences", .setButton "set_reset_preferences_button"] ++
  emitIf (c.declared.contains .force_co2_calibration)
    [.newButton "force_co2_calibration", .setButton "set_force_co2_calibration_button"] ++
  emitIf (c.declared.contains .co2_factory_reset)
    [.newButton "co2_factory_reset", .setButton "set_co2_factory_reset_button"] ++
  emitIf (c.declared.contains .sht_heater)
    [.newButton "sht_heater", .setButton "set_sht_heater_button"] ++
  emitIf (c.declared.contains .clear_device_status)
    [.newButton "clear_device_status", .setButton "set_clear_device_status_button"]

/-- The four optional text-sensor keys (text_sensor.py). -/
inductive TextSensorKey where
  | product_name | serial_number | status_hex | firmware_version
deriving DecidableEq, Repr

/-- The validated text-sensor platform configuration: declared keys in
declaration order. -/
structure TextSensorPlatformConfig where
  declared : List TextSensorKey
deriving DecidableEq, Repr

/-- Embedding of the text-sensor platform to_code (text_sensor.py lines
33-50). -/
def text_sensor_to_code (c : TextSensorPlatformConfig) : List Instr :=
  emitIf (c.declared.contains .product_name)
    [.newTextSensor "product_name", .setTextSensor "set_product_name_text_sensor"] ++
  emitIf (c.declared.contains .serial_number)
    [.newTextSensor "serial_number", .setTextSensor "set_serial_number_text_sensor"] ++
  emitIf (c.declared.contains .status_hex)
    [.newTextSensor "status_hex", .setTextSensor "set_status_text_sensor"] ++
  emitIf (c.declared.contains .firmware_version)
    [.newTextSensor "firmware_version", .setTextSensor "set_firmware_version_sensor"]

/-- One full validated build configuration: the hub block plus the six
entity platforms. -/
structure FullConfig where
  hub : HubConfig
  sensors : SensorPlatformConfig
  binary_sensors : BinarySensorPlatformConfig
  numbers : NumberPlatformConfig
  switches : SwitchPlatformConfig
  buttons : ButtonPlatformConfig
  texts : TextSensorPlatformConfig
deriving DecidableEq, Repr

/-- The full emission pipeline of one build: the hub instructions followed
by each platform in the registrar order stated by the spec (sensor,
binary-state, number, switch, button, text). The per-platform emissions are
the source embeddings above; the inter-platform order is dispatched by the
host framework (not under src/) and follows the spec here. -/
def emit_all (c : FullConfig) : List Instr :=
  hub_to_code c.hub ++
  sensor_to_code c.sensors ++
  binary_sensor_to_code c.binary_sensors ++
  number_to_code c.numbers ++
  switch_to_code c.switches ++
  button_to_code c.buttons ++
  text_sensor_to_code c.texts

/-- Selector for temperature-compensation instructions. -/
def isTempCompInstr : Instr → Bool
  | .setTemperatureCompensation _ _ _ => true
  | _ => false

/-- The temperature-compensation instructions of an emitted sequence. -/
def tempCompInstrs (l : List Instr) : List Instr :=
  l.filter isTempCompInstr

/-- Selector for VOC or NOx algorithm-tuning instructions. -/
def isTuningInstr : Instr → Bool
  | .setVocAlgorithmTuning _ _ _ _ _ _ => true
  | .setNoxAlgorithmTuning _ _ _ _ _ _ => true
  | _ => false

/-- The algorithm-tuning instructions of an emitted sequence. -/
def tuningInstrs (l : List Instr) : List Instr :=
  l.filter isTuningInstr

/-- Selector for number-construction instructions, which carry the
externally visible min, max and step. -/
def isNewNumberInstr : Instr → Bool
  | .newNumber _ _ _ _ => true
  | _ => false

/-- The number-construction instructions of an emitted sequence. -/
def newNumberInstrs (l : List Instr) : List Instr :=
  l.filter isNewNumberInstr

/-- C1, counterexample: the record returned for the unknown model string
UNKNOWN does not dominate every record in the table — the table holds the
SEN68 record, whose hcho flag exceeds the hcho flag of the returned
record. -/
theorem C1_counterexample :
    MODEL_CAPABILITIES.lookup "UNKNOWN" = none ∧
    MODEL_CAPABILITIES.lookup "SEN68" =
      some ⟨true, false, true, true, true, false, true⟩ ∧
    capDominates (get_model_capabilities "UNKNOWN")
      ⟨true, false, true, true, true, false, true⟩ = false := by
  decide

/-- C1, amended: the capability lookup is total — for every model string it
returns the record stored under that key when the key is known, and
otherwise the SEN66 record (the record of the code's literal fallback key,
which is not the most capable record of the table). -/
theorem C1_capability_lookup (m : String) :
    get_model_capabilities m = (MODEL_CAPABILITIES.lookup m).getD sen66_record := by
  unfold get_model_capabilities
  cases MODEL_CAPABILITIES.lookup m <;> rfl

/-- C10: the capability lookup is total (every model string yields either
the table record of a known key or the fallback record), the fallback is
specifically the SEN66 record whose hcho flag is false, and the table also
holds the all-true SEN69C record, which strictly dominates the fallback. -/
theorem C10_fallback_is_dominated (m : String) :
    (get_model_capabilities m = sen66_record ∨
      ∃ r, MODEL_CAPABILITIES.lookup m = some r ∧ get_model_capabilities m = r) ∧
    sen66_record.hcho = false ∧
    MODEL_CAPABILITIES.lookup "SEN69C" = some sen69c_record ∧
    sen69c_record = ⟨true, true, true, true, true, true, true⟩ ∧
    capDominates sen69c_record sen66_record = true ∧
    capDominates sen66_record sen69c_record = false := by
  refine ⟨?_, by decide, by decide, by decide, by decide, by decide⟩
  unfold get_model_capabilities
  cases h : MODEL_CAPABILITIES.lookup m with
  | some r => exact Or.inr ⟨r, rfl, rfl⟩
  | none => exact Or.inl rfl

/-- C4: the VOC and NOx tuning default records agree on their
learning_time_offset_hours, learning_time_gain_hours, std_initial and
gain_factor fields and differ on exactly the other two: index_offset is 100
for VOC and 1 for NOx, gating_max_duration_minutes is 180 for VOC and 720
for NOx. -/
theorem C4_tuning_defaults :
    VOC_DEFAULTS.learning_time_offset_hours = NOX_DEFAULTS.learning_time_offset_hours ∧
    VOC_DEFAULTS.learning_time_gain_hours = NOX_DEFAULTS.learning_time_gain_hours ∧
    VOC_DEFAULTS.std_initial = NOX_DEFAULTS.std_initial ∧
    VOC_DEFAULTS.gain_factor = NOX_DEFAULTS.gain_factor ∧
    VOC_DEFAULTS.index_offset = 100 ∧ NOX_DEFAULTS.index_offset = 1 ∧
    VOC_DEFAULTS.index_offset ≠ NOX_DEFAULTS.index_offset ∧
    VOC_DEFAULTS.gating_max_duration_minutes = 180 ∧
    NOX_DEFAULTS.gating_max_duration_minutes = 720 ∧
    VOC_DEFAULTS.gating_max_duration_minutes ≠ NOX_DEFAULTS.gating_max_duration_minutes := by
  decide

/-- C2, counterexample: for a hub configuration declaring both blocks, the
pressure-reference binding instruction is emitted before the
RHT-acceleration instruction, not after it as the claim states. -/
theorem C2_counterexample :
    hub_to_code ⟨some (), some ⟨1, 2, 3, 4⟩⟩ =
      [.newPvariable, .registerComponent, .registerI2CDevice,
       .setPressureSource, .setRhtAcceleration 1 2 3 4] ∧
    hub_to_code ⟨some (), some ⟨1, 2, 3, 4⟩⟩ ≠
      [.newPvariable, .registerComponent, .registerI2CDevice,
       .setRhtAcceleration 1 2 3 4, .setPressureSource] := by
  decide

/-- C2, amended: for every validated hub configuration declaring both an
RHT-acceleration block and an external pressure reference, the emitted
sequence is hub construction, component registration, I2C registration,
then the pressure-reference binding instruction, then the instruction
carrying the four RHT-acceleration values. -/
theorem C2_hub_emission_order (c : HubConfig) (r : RhtAccel)
    (hp : c.pressure_source = some ()) (hr : c.rht_acceleration = some r) :
    hub_to_code c =
      [.newPvariable, .registerComponent, .registerI2CDevice,
       .setPressureSource, .setRhtAcceleration r.k r.p r.t1 r.t2] := by
  simp [hub_to_code, hp, hr]

/-- C2, witness: the amended order theorem at a concrete hub
configuration. -/
theorem C2_hub_emission_order_witness :
    hub_to_code ⟨some (), some ⟨5, -3, 20, 100⟩⟩ =
      [.newPvariable, .registerComponent, .registerI2CDevice,
       .setPressureSource, .setRhtAcceleration 5 (-3) 20 100] :=
  C2_hub_emission_order ⟨some (), some ⟨5, -3, 20, 100⟩⟩ ⟨5, -3, 20, 100⟩ rfl rfl

/-- C3, counterexample: a sensor configuration declaring pm_2_5 before
pm_1_0 still emits the pm_1_0 instructions first — the emitted order is the
fixed source order, not the declaration order. -/
theorem C3_counterexample :
    sensor_to_code ⟨[.pm_2_5, .pm_1_0], none, none⟩ =
      [.newSensor "pm_1_0", .setSensor "set_pm_1_0_sensor",
       .newSensor "pm_2_5", .setSensor "set_pm_2_5_sensor"] ∧
    sensor_to_code ⟨[.pm_2_5, .pm_1_0], none, none⟩ ≠
      [.newSensor "pm_2_5", .setSensor "set_pm_2_5_sensor",
       .newSensor "pm_1_0", .setSensor "set_pm_1_0_sensor"] := by
  decide

/-- C3, amended: each registrar emits its per-entity instructions in a fixed
per-registrar key order given by the source, depending only on which
entities are declared (and their payloads) and not on the order in which
the user declared them: two configurations with the same membership and the
same payloads emit identical sequences. -/
theorem C3_fixed_emission_order
    (c1 c2 : SensorPlatformConfig) (b1 b2 : BinarySensorPlatformConfig)
    (hs : ∀ k, c1.declared.contains k = c2.declared.contains k)
    (hv : c1.voc_tuning = c2.voc_tuning) (hn : c1.nox_tuning = c2.nox_tuning)
    (hb : ∀ k, b1.declared.contains k = b2.declared.contains k) :
    sensor_to_code c1 = sensor_to_code c2 ∧
    binary_sensor_to_code b1 = binary_sensor_to_code b2 := by
  constructor
  · simp only [sensor_to_code, hs, hv, hn]
  · simp only [binary_sensor_to_code, hb]

/-- C3, witness: the amended theorem at two concrete configurations whose
declaration orders are reversed. -/
theorem C3_fixed_emission_order_witness :
    sensor_to_code ⟨[.co2, .humidity], none, none⟩ =
      sensor_to_code ⟨[.humidity, .co2], none, none⟩ ∧
    binary_sensor_to_code ⟨[.gas_error, .fan_error]⟩ =
      binary_sensor_to_code ⟨[.fan_error, .gas_error]⟩ :=
  C3_fixed_emission_order ⟨[.co2, .humidity], none, none⟩
    ⟨[.humidity, .co2], none, none⟩ ⟨[.gas_error, .fan_error]⟩
    ⟨[.fan_error, .gas_error]⟩
    (by intro k; cases k <;> rfl) rfl rfl
    (by intro k; cases k <;> rfl)

/-- Helper: filtering commutes with guarded emission. -/
theorem filter_emitIf (p : Instr → Bool) (b : Bool) (l : List Instr) :
    (emitIf b l).filter p = emitIf b (l.filter p) := by
  cases b <;> simp [emitIf]

/-- Helper: a guarded emission of nothing is nothing. -/
theorem emitIf_nil (b : Bool) : emitIf b [] = [] := by
  cases b <;> rfl

/-- C5: the algorithm-tuning instructions of an emitted sensor sequence are
exactly one per declared index sensor carrying a tuning sub-block, each
forwarding the six validated values of that block together, and none when
the sub-block is absent. -/
theorem C5_algorithm_tuning (c : SensorPlatformConfig) :
    tuningInstrs (sensor_to_code c) =
      emitIf (c.declared.contains .voc_index)
        (match c.voc_tuning with
         | some t => [.setVocAlgorithmTuning t.index_offset
             t.learning_time_offset_hours t.learning_time_gain_hours
             t.gating_max_duration_minutes t.std_initial t.gain_factor]
         | none => []) ++
      emitIf (c.declared.contains .nox_index)
        (match c.nox_tuning with
         | some t => [.setNoxAlgorithmTuning t.index_offset
             t.learning_time_offset_hours t.learning_time_gain_hours
             t.gating_max_duration_minutes t.std_initial t.gain_factor]
         | none => []) := by
  rcases c with ⟨d, vt, nt⟩
  rcases vt with _ | t1 <;> rcases nt with _ | t2 <;>
    simp [sensor_to_code, tuningInstrs, List.filter_append, filter_emitIf,
      isTuningInstr, emitIf_nil]

/-- C6: for every validated number configuration declaring the
temperature_offset entity, the emitted sequence carries exactly one
temperature-compensation instruction with arguments (0.0, slope,
time_constant) when the validated slope is nonzero or the validated time
constant is nonzero, and none otherwise. -/
theorem C6_temperature_compensation (c : NumberPlatformConfig)
    (t : TempOffsetConfig) (h : c.temperature_offset = some t) :
    tempCompInstrs (number_to_code c) =
      (if t.normalized_offset_slope ≠ 0 ∨ t.time_constant ≠ 0 then
         [.setTemperatureCompensation 0 t.normalized_offset_slope t.time_constant]
       else []) := by
  by_cases hcond : t.normalized_offset_slope ≠ 0 ∨ t.time_constant ≠ 0 <;>
    cases hac : c.altitude_compensation <;>
    cases hpc : c.ambient_pressure_compensation <;>
    cases hoc : c.outdoor_co2_reference <;>
    simp [number_to_code, tempCompInstrs, h, hac, hpc, hoc, hcond,
      isTempCompInstr, List.filter_append]

/-- C6, witness: a temperature_offset entry with slope 1/20 (the exact
value of the float literal 0.05) and time constant 0 yields exactly one
compensation instruction carrying (0, 1/20, 0). -/
theorem C6_temperature_compensation_witness :
    tempCompInstrs (number_to_code ⟨none, none, some ⟨1/20, 0⟩, none⟩) =
      [.setTemperatureCompensation 0 (1/20) 0] := by
  rw [C6_temperature_compensation ⟨none, none, some ⟨1/20, 0⟩, none⟩ ⟨1/20, 0⟩ rfl]
  norm_num

/-- C7: the interval field of the auto-fan-cleaning switch defaults to 7
days (604800 seconds, the DEFAULT_CLEANING_INTERVAL of the source) when
omitted; the emitted interval instruction carries the validated seconds
multiplied by 1000 (milliseconds); the raw inputs 7d and 1h yield the
emitted values 604800000 and 3600000. -/
theorem C7_auto_cleaning_interval (c : SwitchPlatformConfig)
    (a : AutoFanCleaningConfig) (h : c.auto_fan_cleaning = some a) :
    validate_auto_fan_cleaning_interval none = some DEFAULT_CLEANING_INTERVAL ∧
    DEFAULT_CLEANING_INTERVAL = 604800 ∧
    Instr.setAutoCleaningInterval (a.interval_seconds * 1000) ∈ switch_to_code c ∧
    autoCleaningEmittedMs (some "7d") = some 604800000 ∧
    autoCleaningEmittedMs (some "1h") = some 3600000 := by
  refine ⟨by decide, rfl, ?_, by decide, by decide⟩
  cases hc : c.co2_automatic_self_calibration <;> simp [switch_to_code, h, hc]

/-- C7, witness: the interval theorem at a concrete switch configuration
whose auto-fan-cleaning interval is one hour (3600 seconds). -/
theorem C7_auto_cleaning_interval_witness :
    validate_auto_fan_cleaning_interval none = some DEFAULT_CLEANING_INTERVAL ∧
    DEFAULT_CLEANING_INTERVAL = 604800 ∧
    Instr.setAutoCleaningInterval (3600 * 1000) ∈ switch_to_code ⟨none, some ⟨3600⟩⟩ ∧
    autoCleaningEmittedMs (some "7d") = some 604800000 ∧
    autoCleaningEmittedMs (some "1h") = some 3600000 :=
  C7_auto_cleaning_interval ⟨none, some ⟨3600⟩⟩ ⟨3600⟩ rfl

/-- C8: for every validated number configuration, the emitted
number-construction instructions carry exactly the hard-coded adjustable
ranges of the source — altitude compensation 0..3000 step 1, ambient
pressure compensation 0..1100 step 1, temperature offset -10..10 step 1/10
(the exact value of the float literal 0.1), outdoor CO2 reference 350..500
step 1 — one instruction per declared entity and none otherwise. -/
theorem C8_number_ranges (c : NumberPlatformConfig) :
    newNumberInstrs (number_to_code c) =
      (match c.altitude_compensation with
       | some _ => [.newNumber "altitude_compensation" 0 3000 1]
       | none => []) ++
      (match c.ambient_pressure_compensation with
       | some _ => [.newNumber "ambient_pressure_compensation" 0 1100 1]
       | none => []) ++
      (match c.temperature_offset with
       | some _ => [.newNumber "temperature_offset" (-10) 10 (1/10)]
       | none => []) ++
      (match c.outdoor_co2_reference with
       | some _ => [.newNumber "outdoor_co2_reference" 350 500 1]
       | none => []) := by
  cases hac : c.altitude_compensation <;>
  cases hpc : c.ambient_pressure_compensation <;>
  cases hto : c.temperature_offset <;>
  cases hoc : c.outdoor_co2_reference <;>
    simp [number_to_code, newNumberInstrs, hac, hpc, hto, hoc,
      isNewNumberInstr, List.filter_append,
      apply_ite (List.filter isNewNumberInstr)]

/-- C9: emission is deterministic — the pipeline is a pure function of the
validated configuration, so two runs on the same validated input yield
identical instruction sequences in order and content. -/
theorem C9_emission_deterministic (c1 c2 : FullConfig) (h : c1 = c2) :
    emit_all c1 = emit_all c2 := by
  rw [h]

/-- C9, witness: the determinism theorem at a concrete full
configuration. -/
theorem C9_emission_deterministic_witness :
    emit_all ⟨⟨some (), some ⟨1, 2, 3, 4⟩⟩, ⟨[.voc_index, .pm_1_0], some VOC_DEFAULTS, none⟩,
              ⟨[.fan_error]⟩, ⟨none, none, some ⟨1/20, 0⟩, none⟩,
              ⟨none, some ⟨604800⟩⟩, ⟨[.fan_cleaning]⟩, ⟨[.product_name]⟩⟩ =
    emit_all ⟨⟨some (), some ⟨1, 2, 3, 4⟩⟩, ⟨[.voc_index, .pm_1_0], some VOC_DEFAULTS, none⟩,
              ⟨[.fan_error]⟩, ⟨none, none, some ⟨1/20, 0⟩, none⟩,
              ⟨none, some ⟨604800⟩⟩, ⟨[.fan_cleaning]⟩, ⟨[.product_name]⟩⟩ :=
  C9_emission_deterministic _ _ rfl
